import Mathlib

/-!
Verification development for the Resilience Pilot service (src/app/main.py).

The embedding models the module-level chaos state, the Prometheus request
instrumentation middleware, the endpoint handlers and the uptime formatter.
Python floats are modelled by rationals; the uniform random draw used by the
degraded health check is an explicit parameter of the health handler; the
metric sink is modelled by the list of increment/observation events a request
emits, in program order.
-/

/-- ChaosState models the module-level CHAOS_MODE dict of main.py: an enabled
flag and a failure probability. -/
structure ChaosState where
  enabled : Bool
  probability : ℚ
deriving DecidableEq

/-- chaosInit is the CHAOS_MODE value at process start. -/
def chaosInit : ChaosState := ⟨false, 0⟩

/-- CounterEvent records one increment of the http_requests_total counter,
with its method, endpoint and status labels. -/
abbrev CounterEvent := String × String × Nat

/-- LatencyEvent records one observation of the http_request_duration_seconds
histogram, with its method and endpoint labels. -/
abbrev LatencyEvent := String × String

/-- Body is the JSON payload of a response: the static info payload, the
metrics text snapshot, the health payload, the two chaos-control confirmation
payloads, or the detail envelope a raised HTTPException is translated into. -/
inductive Body where
  | info
  | metricsText
  | health (status : String) (uptime : ℚ) (uptimeFormatted : String) (chaosMode : Bool)
  | chaosEnabled (failureProbability : ℚ)
  | chaosDisabled
  | detail (message : String)
deriving DecidableEq

/-- HandlerResult is what a handler produces: a normal return with a status and
body, or a raised HTTPException carrying a status code and a detail message. -/
inductive HandlerResult where
  | ok (status : Nat) (body : Body)
  | httpError (status : Nat) (detail : String)
deriving DecidableEq

/-- pyFloorDiv models Python floor division a // b on floats (result is an
integral float, read back as an integer). -/
def pyFloorDiv (a b : ℚ) : ℤ := ⌊a / b⌋

/-- pyMod models Python a % b on floats: a - b * (a // b). -/
def pyMod (a b : ℚ) : ℚ := a - b * (⌊a / b⌋ : ℚ)

/-- pyTrunc models the Python int() conversion on a float: truncation toward
zero. -/
def pyTrunc (q : ℚ) : ℤ := if 0 ≤ q then ⌊q⌋ else -⌊-q⌋

/-- format_uptime mirrors format_uptime of main.py lines 247-261: split the
seconds into days, hours, minutes and seconds with // and %, then render the
first pattern whose leading unit is positive. -/
def format_uptime (seconds : ℚ) : String :=
  let days : ℤ := pyFloorDiv seconds 86400
  let hours : ℤ := pyFloorDiv (pyMod seconds 86400) 3600
  let minutes : ℤ := pyFloorDiv (pyMod seconds 3600) 60
  let secs : ℤ := pyTrunc (pyMod seconds 60)
  if days > 0 then
    toString days ++ "d " ++ toString hours ++ "h " ++ toString minutes ++ "m "
      ++ toString secs ++ "s"
  else if hours > 0 then
    toString hours ++ "h " ++ toString minutes ++ "m " ++ toString secs ++ "s"
  else if minutes > 0 then
    toString minutes ++ "m " ++ toString secs ++ "s"
  else
    toString secs ++ "s"

/-- roundHalfEven models round-half-to-even on an exact rational, the rounding
Python round() uses. -/
def roundHalfEven (q : ℚ) : ℤ :=
  if q - ⌊q⌋ < 1/2 then ⌊q⌋
  else if 1/2 < q - ⌊q⌋ then ⌊q⌋ + 1
  else if ⌊q⌋ % 2 = 0 then ⌊q⌋ else ⌊q⌋ + 1

/-- round2 models Python round(x, 2). -/
def round2 (q : ℚ) : ℚ := (roundHalfEven (q * 100) : ℚ) / 100

/-- chaosDetail is the fixed detail message of the immediate crash, main.py
line 213. -/
def chaosDetail : String :=
  "💥 Chaos injected! This is an intentional crash for testing."

/-- degradedDetail is the detail message of the 503 health failure, main.py
line 150. -/
def degradedDetail : String := "Service degraded (chaos mode active)"

/-- unknownModeDetail is the detail message of the 400 bad-mode fault, main.py
line 239. -/
def unknownModeDetail (mode : String) : String :=
  "Unknown mode: " ++ mode ++ ". Use \x27immediate\x27, \x27degraded\x27, or \x27reset\x27"

/-- shouldFail models the chaos check on main.py line 146: enabled and a fresh
uniform draw below the stored probability. -/
def shouldFail (st : ChaosState) (draw : ℚ) : Bool :=
  st.enabled && decide (draw < st.probability)

/-- health_check models the GET /health handler, main.py lines 130-161: on the
chaos branch it records a synthetic 503 count itself and raises a 503
HTTPException, otherwise it returns the 200 health payload.  The uptime gauge
write is not part of any claim and is left out of the event list. -/
def health_check (st : ChaosState) (uptime draw : ℚ) :
    List CounterEvent × HandlerResult :=
  if shouldFail st draw then
    ([("GET", "/health", 503)], .httpError 503 degradedDetail)
  else
    ([], .ok 200 (.health "healthy" (round2 uptime) (format_uptime uptime) st.enabled))

/-- simulate_crash models the POST /simulate-crash handler, main.py lines
186-240: immediate records a 500 count and raises; degraded writes the clamped
probability and enables chaos; reset disables chaos; any other mode raises a
400 naming the mode. -/
def simulate_crash (st : ChaosState) (mode : String) (probability : ℚ) :
    ChaosState × List CounterEvent × HandlerResult :=
  if mode = "immediate" then
    (st, [("POST", "/simulate-crash", 500)], .httpError 500 chaosDetail)
  else if mode = "degraded" then
    let p := min (max probability 0) 1
    (⟨true, p⟩, [], .ok 200 (.chaosEnabled p))
  else if mode = "reset" then
    (⟨false, 0⟩, [], .ok 200 .chaosDisabled)
  else
    (st, [], .httpError 400 (unknownModeDetail mode))

/-- HandlerOutcome is what the instrumentation middleware sees returned by
call_next: a response carrying a status code (a raised HTTPException has
already been translated to its mapped response by the framework exception
handlers running below the middleware), or an unmapped exception propagating
through. -/
inductive HandlerOutcome (ε : Type) where
  | response (status : Nat)
  | exn (e : ε)
deriving DecidableEq

/-- InstrumentResult collects the metric events the middleware records and the
outcome it passes on to the caller. -/
structure InstrumentResult (ε : Type) where
  counters : List CounterEvent
  latencies : List LatencyEvent
  outcome : HandlerOutcome ε
deriving DecidableEq

/-- instrument_requests models the middleware of main.py lines 90-109: the try
block reads the response status, the except block forces status 500 and
re-raises the exception unchanged, and the finally block records exactly one
counter increment and one latency observation with the method and raw path. -/
def instrument_requests (ε : Type) (method endpoint : String)
    (out : HandlerOutcome ε) : InstrumentResult ε :=
  let status : Nat :=
    match out with
    | .response s => s
    | .exn _ => 500
  ⟨[(method, endpoint, status)], [(method, endpoint)], out⟩

/-- Op is one inbound request to the service.  Query parameters are Option so
that an absent parameter takes the FastAPI default. -/
inductive Op where
  | rootReq
  | healthReq (uptime draw : ℚ)
  | metricsReq
  | crashReq (mode : Option String) (probability : Option ℚ)
deriving DecidableEq

/-- methodOf gives the HTTP method of a request. -/
def methodOf : Op → String
  | .crashReq _ _ => "POST"
  | _ => "GET"

/-- endpointOf gives the raw request path, which the middleware uses as the
endpoint label. -/
def endpointOf : Op → String
  | .rootReq => "/"
  | .healthReq _ _ => "/health"
  | .metricsReq => "/metrics"
  | .crashReq _ _ => "/simulate-crash"

/-- dispatch runs the matched handler on the current chaos state, applying the
FastAPI defaults mode="immediate" and probability=1.0 to absent query
parameters, and yields the new state, the counter events the handler itself
recorded, and its result. -/
def dispatch (st : ChaosState) : Op → ChaosState × List CounterEvent × HandlerResult
  | .rootReq => (st, [], .ok 200 .info)
  | .metricsReq => (st, [], .ok 200 .metricsText)
  | .healthReq u draw =>
      let r := health_check st u draw
      (st, r.1, r.2)
  | .crashReq mode probability =>
      simulate_crash st (mode.getD "immediate") (probability.getD 1)

/-- statusOfResult is the status code of the transport response: the returned
status, or the mapped status of a raised HTTPException. -/
def statusOfResult : HandlerResult → Nat
  | .ok s _ => s
  | .httpError s _ => s

/-- bodyOfResult is the response body: the returned payload, or the detail
envelope of a raised HTTPException. -/
def bodyOfResult : HandlerResult → Body
  | .ok _ b => b
  | .httpError _ d => .detail d

/-- RequestOutcome is everything observable about one processed request: the
chaos state afterwards, all counter increments and latency observations in
program order (handler first, then middleware), and the response status and
body. -/
structure RequestOutcome where
  chaos : ChaosState
  counters : List CounterEvent
  latencies : List LatencyEvent
  status : Nat
  body : Body
deriving DecidableEq

/-- processRequest runs one request through handler dispatch, the framework
translation of a raised HTTPException into its response, and the
instrumentation middleware. -/
def processRequest (st : ChaosState) (op : Op) : RequestOutcome :=
  let d := dispatch st op
  let status := statusOfResult d.2.2
  let mid := instrument_requests Unit (methodOf op) (endpointOf op) (.response status)
  ⟨d.1, d.2.1 ++ mid.counters, mid.latencies, status, bodyOfResult d.2.2⟩

/-- runOps folds a request trace over the chaos state. -/
def runOps (st : ChaosState) : List Op → ChaosState
  | [] => st
  | op :: rest => runOps (processRequest st op).chaos rest

/-! ## Helper predicates on requests -/

/-- writesDegraded holds of the one request that enables chaos: a crash
request whose effective mode (after the default) is degraded. -/
def writesDegraded : Op → Bool
  | .crashReq mode _ => mode.getD "immediate" = "degraded"
  | _ => false

/-- isHealth holds of health requests. -/
def isHealth : Op → Bool
  | .healthReq _ _ => true
  | _ => false

/-- bucketOf is the counter bucket the middleware records for a request. -/
def bucketOf (op : Op) (status : Nat) : CounterEvent :=
  (methodOf op, endpointOf op, status)

/-! ## Theorems -/

/-- C1 (amended): every request records exactly one latency observation; the
middleware records exactly one counter increment, and on a signaled chaos
fault the handler has already recorded one synthetic increment of the same
(method, endpoint, status) bucket, so the counter events of a request are one
or two copies of a single bucket. -/
theorem request_metrics_single_bucket (st : ChaosState) (op : Op) :
    (processRequest st op).latencies = [(methodOf op, endpointOf op)] ∧
    ((processRequest st op).counters = [bucketOf op (processRequest st op).status] ∨
      (processRequest st op).counters =
        [bucketOf op (processRequest st op).status,
         bucketOf op (processRequest st op).status]) := by
  cases op with
  | rootReq =>
      exact ⟨rfl, Or.inl rfl⟩
  | metricsReq =>
      exact ⟨rfl, Or.inl rfl⟩
  | healthReq u d =>
      by_cases h : shouldFail st d
      · refine ⟨rfl, Or.inr ?_⟩
        simp [processRequest, dispatch, health_check, h, instrument_requests,
          statusOfResult, bucketOf, methodOf, endpointOf]
      · refine ⟨rfl, Or.inl ?_⟩
        simp [processRequest, dispatch, health_check, h, instrument_requests,
          statusOfResult, bucketOf, methodOf, endpointOf]
  | crashReq mode p =>
      by_cases h1 : mode.getD "immediate" = "immediate"
      · refine ⟨rfl, Or.inr ?_⟩
        simp [processRequest, dispatch, simulate_crash, h1, instrument_requests,
          statusOfResult, bucketOf, methodOf, endpointOf]
      · by_cases h2 : mode.getD "immediate" = "degraded"
        · refine ⟨rfl, Or.inl ?_⟩
          simp [processRequest, dispatch, simulate_crash, h1, h2,
            instrument_requests, statusOfResult, bucketOf, methodOf, endpointOf]
        · by_cases h3 : mode.getD "immediate" = "reset"
          · refine ⟨rfl, Or.inl ?_⟩
            simp [processRequest, dispatch, simulate_crash, h1, h2, h3,
              instrument_requests, statusOfResult, bucketOf, methodOf, endpointOf]
          · refine ⟨rfl, Or.inl ?_⟩
            simp [processRequest, dispatch, simulate_crash, h1, h2, h3,
              instrument_requests, statusOfResult, bucketOf, methodOf, endpointOf]

/-- C1 (counterexample): an immediate crash request records two counter
increments, not exactly one: the handler increment and the middleware
increment. -/
theorem request_metrics_double_count_cex :
    (processRequest chaosInit (.crashReq (some "immediate") none)).counters.length = 2 ∧
    (processRequest chaosInit (.crashReq (some "immediate") none)).counters.length ≠ 1 := by
  decide

/-- C2 (amended): an immediate crash request always responds 500 with the
fixed chaos detail, leaves the chaos state unchanged, and records the
(POST, /simulate-crash, 500) counter increment twice: once in the handler and
once in the middleware. -/
theorem simulate_crash_immediate_500 (st : ChaosState) (probability : Option ℚ) :
    (processRequest st (.crashReq (some "immediate") probability)).status = 500 ∧
    (processRequest st (.crashReq (some "immediate") probability)).body =
      .detail chaosDetail ∧
    (processRequest st (.crashReq (some "immediate") probability)).counters =
      [("POST", "/simulate-crash", 500), ("POST", "/simulate-crash", 500)] ∧
    (processRequest st (.crashReq (some "immediate") probability)).chaos = st := by
  refine ⟨rfl, rfl, ?_, rfl⟩
  simp [processRequest, dispatch, simulate_crash, instrument_requests,
    statusOfResult, methodOf, endpointOf]

/-- C2 (counterexample): one immediate crash request increments the
(POST, /simulate-crash, 500) counter twice, not exactly once. -/
theorem simulate_crash_immediate_count_cex :
    (processRequest chaosInit (.crashReq (some "immediate") (some 1))).counters.count
      ("POST", "/simulate-crash", 500) = 2 ∧
    ¬ (processRequest chaosInit (.crashReq (some "immediate") (some 1))).counters.count
      ("POST", "/simulate-crash", 500) = 1 := by
  decide

/-- C7: an unrecognized mode yields a 400 fault whose detail names the mode,
leaves the chaos state unchanged, and a subsequent health request behaves
exactly as if the malformed call never happened. -/
theorem simulate_crash_unknown_mode (st : ChaosState) (mode : String)
    (probability : Option ℚ) (u d : ℚ)
    (h1 : mode ≠ "immediate") (h2 : mode ≠ "degraded") (h3 : mode ≠ "reset") :
    (processRequest st (.crashReq (some mode) probability)).status = 400 ∧
    (processRequest st (.crashReq (some mode) probability)).body =
      .detail (unknownModeDetail mode) ∧
    (processRequest st (.crashReq (some mode) probability)).chaos = st ∧
    processRequest (processRequest st (.crashReq (some mode) probability)).chaos
        (.healthReq u d) =
      processRequest st (.healthReq u d) := by
  have hst : (processRequest st (.crashReq (some mode) probability)).chaos = st := by
    simp [processRequest, dispatch, simulate_crash, h1, h2, h3]
  refine ⟨?_, ?_, hst, by rw [hst]⟩
  · simp [processRequest, dispatch, simulate_crash, h1, h2, h3, statusOfResult]
  · simp [processRequest, dispatch, simulate_crash, h1, h2, h3, statusOfResult,
      bodyOfResult]

/-- C7 (witness): the bad mode "bogus" at the initial state. -/
theorem simulate_crash_unknown_mode_witness :
    (processRequest chaosInit (.crashReq (some "bogus") none)).status = 400 ∧
    (processRequest chaosInit (.crashReq (some "bogus") none)).body =
      .detail (unknownModeDetail "bogus") := by
  have h := simulate_crash_unknown_mode chaosInit "bogus" none 0 0
    (by decide) (by decide) (by decide)
  exact ⟨h.1, h.2.1⟩

/-- C8: when the handler signals an unmapped fault, the middleware records the
counter increment and the latency observation with the status forced to 500,
and passes the original fault on unchanged. -/
theorem instrument_unmapped_fault (ε : Type) (method endpoint : String) (e : ε) :
    instrument_requests ε method endpoint (.exn e) =
      ⟨[(method, endpoint, 500)], [(method, endpoint)], .exn e⟩ :=
  rfl

/-- C9: a health request that does not take the chaos branch responds 200 with
exactly the healthy payload (status "healthy", uptime rounded to 2 decimals,
formatted uptime, and the current enabled flag); when chaos triggers it
responds 503 with the degraded detail envelope. -/
theorem health_check_response (st : ChaosState) (u d : ℚ) :
    (shouldFail st d = false →
      processRequest st (.healthReq u d) =
        ⟨st, [("GET", "/health", 200)], [("GET", "/health")], 200,
          .health "healthy" (round2 u) (format_uptime u) st.enabled⟩) ∧
    (shouldFail st d = true →
      processRequest st (.healthReq u d) =
        ⟨st, [("GET", "/health", 503), ("GET", "/health", 503)],
          [("GET", "/health")], 503, .detail degradedDetail⟩) := by
  constructor
  · intro h
    simp [processRequest, dispatch, health_check, h, instrument_requests,
      statusOfResult, bodyOfResult, methodOf, endpointOf]
  · intro h
    simp [processRequest, dispatch, health_check, h, instrument_requests,
      statusOfResult, bodyOfResult, methodOf, endpointOf]

/-- C9 (witness): both branches at concrete states: chaos off gives the 200
healthy payload, chaos certain gives the 503 degraded envelope. -/
theorem health_check_response_witness :
    processRequest ⟨false, 0⟩ (.healthReq 5 0) =
      ⟨⟨false, 0⟩, [("GET", "/health", 200)], [("GET", "/health")], 200,
        .health "healthy" (round2 5) (format_uptime 5) false⟩ ∧
    processRequest ⟨true, 1⟩ (.healthReq 5 0) =
      ⟨⟨true, 1⟩, [("GET", "/health", 503), ("GET", "/health", 503)],
        [("GET", "/health")], 503, .detail degradedDetail⟩ :=
  ⟨(health_check_response ⟨false, 0⟩ 5 0).1 (by decide),
   (health_check_response ⟨true, 1⟩ 5 0).2 (by decide)⟩

/-- C10: a crash request with no mode parameter is processed exactly as
mode="immediate": it responds 500 with the chaos detail and increments the
(POST, /simulate-crash, 500) counter. -/
theorem simulate_crash_default_mode (st : ChaosState) (probability : Option ℚ) :
    processRequest st (.crashReq none probability) =
      processRequest st (.crashReq (some "immediate") probability) ∧
    (processRequest st (.crashReq none probability)).status = 500 ∧
    (processRequest st (.crashReq none probability)).body = .detail chaosDetail ∧
    0 < (processRequest st (.crashReq none probability)).counters.count
      ("POST", "/simulate-crash", 500) := by
  refine ⟨rfl, rfl, rfl, ?_⟩
  simp [processRequest, dispatch, simulate_crash, instrument_requests,
    statusOfResult, methodOf, endpointOf, List.count_cons]

/-- Helper: the probability a crash request stores is within the unit
interval whenever the prior one was, for every request. -/
lemma probability_mem_unit_preserved (st : ChaosState) (op : Op)
    (h0 : 0 ≤ st.probability) (h1 : st.probability ≤ 1) :
    0 ≤ (processRequest st op).chaos.probability ∧
      (processRequest st op).chaos.probability ≤ 1 := by
  cases op with
  | rootReq => exact ⟨h0, h1⟩
  | metricsReq => exact ⟨h0, h1⟩
  | healthReq u d =>
      by_cases h : shouldFail st d <;>
        simp [processRequest, dispatch, health_check, h, h0, h1]
  | crashReq mode p =>
      by_cases hi : mode.getD "immediate" = "immediate"
      · simpa [processRequest, dispatch, simulate_crash, hi] using ⟨h0, h1⟩
      · by_cases hd : mode.getD "immediate" = "degraded"
        · constructor
          · simp [processRequest, dispatch, simulate_crash, hi, hd, le_min_iff,
              le_max_iff]
          · simp [processRequest, dispatch, simulate_crash, hi, hd]
        · by_cases hr : mode.getD "immediate" = "reset"
          · simp [processRequest, dispatch, simulate_crash, hi, hd, hr]
          · simpa [processRequest, dispatch, simulate_crash, hi, hd, hr]
              using ⟨h0, h1⟩

/-- C4: the degraded write stores exactly the clamped probability with the
enabled flag set, and every request preserves membership of the probability
in the unit interval, so the probability is within bounds after every write. -/
theorem chaos_probability_clamped :
    (∀ (st : ChaosState) (p : ℚ),
      (processRequest st (.crashReq (some "degraded") (some p))).chaos =
        ⟨true, min (max p 0) 1⟩) ∧
    (∀ (st : ChaosState) (op : Op),
      0 ≤ st.probability → st.probability ≤ 1 →
      0 ≤ (processRequest st op).chaos.probability ∧
        (processRequest st op).chaos.probability ≤ 1) := by
  constructor
  · intro st p
    simp [processRequest, dispatch, simulate_crash]
  · exact probability_mem_unit_preserved

/-- C4 (witness): clamping at p = 7 from the initial state, and preservation
on a concrete request from a state with probability 1/2. -/
theorem chaos_probability_clamped_witness :
    (processRequest chaosInit (.crashReq (some "degraded") (some 7))).chaos =
      ⟨true, 1⟩ ∧
    0 ≤ (processRequest ⟨true, 1/2⟩ .rootReq).chaos.probability := by
  constructor
  · have h := chaos_probability_clamped.1 chaosInit 7
    rw [h]
    norm_num
  · exact (chaos_probability_clamped.2 ⟨true, 1/2⟩ .rootReq (by norm_num)
      (by norm_num)).1

/-- Helper: a request that is not a degraded write leaves a disabled chaos
flag disabled. -/
lemma enabled_false_preserved (st : ChaosState) (op : Op)
    (hop : writesDegraded op = false) (h : st.enabled = false) :
    (processRequest st op).chaos.enabled = false := by
  cases op with
  | rootReq => exact h
  | metricsReq => exact h
  | healthReq u d =>
      by_cases hf : shouldFail st d <;>
        simp [processRequest, dispatch, health_check, hf, h]
  | crashReq mode p =>
      have hd : mode.getD "immediate" ≠ "degraded" := by
        simpa [writesDegraded] using hop
      by_cases hi : mode.getD "immediate" = "immediate"
      · simp [processRequest, dispatch, simulate_crash, hi, h]
      · by_cases hr : mode.getD "immediate" = "reset"
        · simp [processRequest, dispatch, simulate_crash, hi, hd, hr]
        · simp [processRequest, dispatch, simulate_crash, hi, hd, hr, h]

/-- Helper: a trace free of degraded writes leaves a disabled chaos flag
disabled. -/
lemma runOps_enabled_false (ops : List Op) (st : ChaosState)
    (hops : ∀ op ∈ ops, writesDegraded op = false) (h : st.enabled = false) :
    (runOps st ops).enabled = false := by
  induction ops generalizing st with
  | nil => exact h
  | cons op rest ih =>
      exact ih (processRequest st op).chaos
        (fun o ho => hops o (List.mem_cons_of_mem op ho))
        (enabled_false_preserved st op (hops op (List.mem_cons_self op rest)) h)

/-- C5: after a reset request, shouldFail is false on every draw after any
further trace that contains no degraded write, and such a health request
responds 200. -/
theorem reset_disables_chaos (st : ChaosState) (probability : Option ℚ)
    (ops : List Op) (hops : ∀ op ∈ ops, writesDegraded op = false)
    (u d : ℚ) :
    shouldFail
      (runOps (processRequest st (.crashReq (some "reset") probability)).chaos ops)
      d = false ∧
    (processRequest
        (runOps (processRequest st (.crashReq (some "reset") probability)).chaos ops)
        (.healthReq u d)).status = 200 := by
  have h1 : (processRequest st (.crashReq (some "reset") probability)).chaos.enabled
      = false := by
    simp [processRequest, dispatch, simulate_crash]
  have h2 := runOps_enabled_false ops
    (processRequest st (.crashReq (some "reset") probability)).chaos hops h1
  have h3 : shouldFail
      (runOps (processRequest st (.crashReq (some "reset") probability)).chaos ops)
      d = false := by
    simp [shouldFail, h2]
  refine ⟨h3, ?_⟩
  generalize hgen :
    runOps (processRequest st (.crashReq (some "reset") probability)).chaos ops
      = stN at h3 ⊢
  simp [processRequest, dispatch, health_check, h3, statusOfResult]

/-- C5 (witness): reset from a fully-degraded state, followed by a health call
and an immediate crash call, still leaves shouldFail false. -/
theorem reset_disables_chaos_witness :
    shouldFail
      (runOps (processRequest ⟨true, 1⟩ (.crashReq (some "reset") none)).chaos
        [.healthReq 0 0, .crashReq (some "immediate") none])
      0 = false ∧
    (processRequest
        (runOps (processRequest ⟨true, 1⟩ (.crashReq (some "reset") none)).chaos
          [.healthReq 0 0, .crashReq (some "immediate") none])
        (.healthReq 0 0)).status = 200 :=
  reset_disables_chaos ⟨true, 1⟩ none
    [.healthReq 0 0, .crashReq (some "immediate") none] (by decide) 0 0

/-- Helper: a health request never changes the chaos state. -/
lemma health_preserves_chaos (st : ChaosState) (u d : ℚ) :
    (processRequest st (.healthReq u d)).chaos = st := by
  by_cases h : shouldFail st d <;>
    simp [processRequest, dispatch, health_check, h]

/-- Helper: a trace of health requests never changes the chaos state. -/
lemma runOps_health_preserves (ops : List Op) (st : ChaosState)
    (hops : ∀ op ∈ ops, isHealth op = true) :
    runOps st ops = st := by
  induction ops generalizing st with
  | nil => rfl
  | cons op rest ih =>
      have hh := hops op (List.mem_cons_self op rest)
      cases op with
      | healthReq u d =>
          rw [runOps, health_preserves_chaos]
          exact ih st (fun o ho => hops o (List.mem_cons_of_mem _ ho))
      | rootReq => exact absurd hh (by simp [isHealth])
      | metricsReq => exact absurd hh (by simp [isHealth])
      | crashReq mode p => exact absurd hh (by simp [isHealth])

/-- C6: after a degraded write with probability 1.0, any number of health
calls later, a health request with any uniform draw in the unit interval
responds 503; after a reset, any number of health calls later, a health
request responds 200. -/
theorem degraded_full_health_503 (st : ChaosState) (ops : List Op)
    (hops : ∀ op ∈ ops, isHealth op = true) (u d : ℚ)
    (_hd0 : 0 ≤ d) (hd1 : d < 1) :
    (processRequest
        (runOps (processRequest st (.crashReq (some "degraded") (some 1))).chaos ops)
        (.healthReq u d)).status = 503 ∧
    (processRequest
        (runOps (processRequest st (.crashReq (some "reset") (some 1))).chaos ops)
        (.healthReq u d)).status = 200 := by
  have hdeg : (processRequest st (.crashReq (some "degraded") (some 1))).chaos =
      ⟨true, 1⟩ := by
    simp [processRequest, dispatch, simulate_crash]
  have hres : (processRequest st (.crashReq (some "reset") (some 1))).chaos =
      ⟨false, 0⟩ := by
    simp [processRequest, dispatch, simulate_crash]
  rw [hdeg, hres, runOps_health_preserves ops _ hops,
    runOps_health_preserves ops _ hops]
  have hfail : shouldFail ⟨true, 1⟩ d = true := by
    simp [shouldFail, hd1]
  have hok : shouldFail ⟨false, 0⟩ d = false := by
    simp [shouldFail]
  constructor
  · simp [processRequest, dispatch, health_check, hfail, statusOfResult]
  · simp [processRequest, dispatch, health_check, hok, statusOfResult]

/-- C6 (witness): concrete draw 1/2 after one intervening health call. -/
theorem degraded_full_health_503_witness :
    (processRequest
        (runOps (processRequest chaosInit (.crashReq (some "degraded") (some 1))).chaos
          [.healthReq 1 (1/2)])
        (.healthReq 0 (1/2))).status = 503 ∧
    (processRequest
        (runOps (processRequest chaosInit (.crashReq (some "reset") (some 1))).chaos
          [.healthReq 1 (1/2)])
        (.healthReq 0 (1/2))).status = 200 :=
  degraded_full_health_503 chaosInit [.healthReq 1 (1/2)] (by decide) 0 (1/2)
    (by norm_num) (by norm_num)

/-! ## Uptime formatting -/

/-- renderUptime follows the spec wording of section 4.2: the four patterns,
selecting the first whose leading unit is nonzero, falling through to
seconds-only, with all sub-unit components of the chosen pattern rendered. -/
def renderUptime (d h m s : ℕ) : String :=
  if 0 < d then
    toString d ++ "d " ++ toString h ++ "h " ++ toString m ++ "m "
      ++ toString s ++ "s"
  else if 0 < h then
    toString h ++ "h " ++ toString m ++ "m " ++ toString s ++ "s"
  else if 0 < m then
    toString m ++ "m " ++ toString s ++ "s"
  else
    toString s ++ "s"

/-- Helper: floor of a division by a natural constant, in terms of the natural
floor of a nonnegative rational. -/
lemma floor_div_natCast (s : ℚ) (hs : 0 ≤ s) (k : ℕ) :
    ⌊s / (k : ℚ)⌋ = ((⌊s⌋₊ / k : ℕ) : ℤ) := by
  rw [← Nat.floor_div_nat s k]
  exact (Int.natCast_floor_eq_floor (div_nonneg hs (Nat.cast_nonneg k))).symm

/-- Helper: the Python float modulus is nonnegative for a positive divisor. -/
lemma pyMod_nonneg (a b : ℚ) (hb : 0 < b) : 0 ≤ pyMod a b := by
  have hfl : ((⌊a / b⌋ : ℚ)) ≤ a / b := Int.floor_le (a / b)
  have hmul : b * (⌊a / b⌋ : ℚ) ≤ b * (a / b) :=
    mul_le_mul_of_nonneg_left hfl hb.le
  have hcancel : b * (a / b) = a := by
    field_simp
  rw [pyMod]
  linarith

/-- Helper: the days component of format_uptime. -/
lemma days_component (s : ℚ) (hs : 0 ≤ s) :
    pyFloorDiv s 86400 = ((⌊s⌋₊ / 86400 : ℕ) : ℤ) := by
  have h : (86400 : ℚ) = ((86400 : ℕ) : ℚ) := by norm_num
  rw [pyFloorDiv, h, floor_div_natCast s hs 86400]

/-- Helper: the hours component of format_uptime. -/
lemma hours_component (s : ℚ) (hs : 0 ≤ s) :
    pyFloorDiv (pyMod s 86400) 3600 = ((⌊s⌋₊ % 86400 / 3600 : ℕ) : ℤ) := by
  have h86 : (86400 : ℚ) = ((86400 : ℕ) : ℚ) := by norm_num
  have h36 : (3600 : ℚ) = ((3600 : ℕ) : ℚ) := by norm_num
  have hq : ⌊s / (86400 : ℚ)⌋ = ((⌊s⌋₊ / 86400 : ℕ) : ℤ) := by
    rw [h86, floor_div_natCast s hs 86400]
  have key : pyMod s 86400 / (3600 : ℚ) =
      s / 3600 - ((24 * (⌊s⌋₊ / 86400 : ℕ) : ℤ) : ℚ) := by
    rw [pyMod, hq]
    push_cast
    ring
  rw [pyFloorDiv, key, Int.floor_sub_int, h36, floor_div_natCast s hs 3600]
  omega

/-- Helper: the minutes component of format_uptime. -/
lemma minutes_component (s : ℚ) (hs : 0 ≤ s) :
    pyFloorDiv (pyMod s 3600) 60 = ((⌊s⌋₊ % 3600 / 60 : ℕ) : ℤ) := by
  have h36 : (3600 : ℚ) = ((3600 : ℕ) : ℚ) := by norm_num
  have h60 : (60 : ℚ) = ((60 : ℕ) : ℚ) := by norm_num
  have hq : ⌊s / (3600 : ℚ)⌋ = ((⌊s⌋₊ / 3600 : ℕ) : ℤ) := by
    rw [h36, floor_div_natCast s hs 3600]
  have key : pyMod s 3600 / (60 : ℚ) =
      s / 60 - ((60 * (⌊s⌋₊ / 3600 : ℕ) : ℤ) : ℚ) := by
    rw [pyMod, hq]
    push_cast
    ring
  rw [pyFloorDiv, key, Int.floor_sub_int, h60, floor_div_natCast s hs 60]
  omega

/-- Helper: the seconds component of format_uptime. -/
lemma secs_component (s : ℚ) (hs : 0 ≤ s) :
    pyTrunc (pyMod s 60) = ((⌊s⌋₊ % 60 : ℕ) : ℤ) := by
  have h60 : (60 : ℚ) = ((60 : ℕ) : ℚ) := by norm_num
  have hq : ⌊s / (60 : ℚ)⌋ = ((⌊s⌋₊ / 60 : ℕ) : ℤ) := by
    rw [h60, floor_div_natCast s hs 60]
  have hnn : 0 ≤ pyMod s 60 := pyMod_nonneg s 60 (by norm_num)
  have key : pyMod s 60 = s - ((60 * (⌊s⌋₊ / 60 : ℕ) : ℤ) : ℚ) := by
    rw [pyMod, hq]
    push_cast
    ring
  rw [pyTrunc, if_pos hnn, key, Int.floor_sub_int,
    ← Int.natCast_floor_eq_floor hs]
  omega

/-- Helper: rendering integer-cast components equals the spec renderer. -/
lemma render_intCast_eq (d h m s : ℕ) :
    (if (d : ℤ) > 0 then
        toString (d : ℤ) ++ "d " ++ toString (h : ℤ) ++ "h " ++ toString (m : ℤ)
          ++ "m " ++ toString (s : ℤ) ++ "s"
      else if (h : ℤ) > 0 then
        toString (h : ℤ) ++ "h " ++ toString (m : ℤ) ++ "m " ++ toString (s : ℤ)
          ++ "s"
      else if (m : ℤ) > 0 then
        toString (m : ℤ) ++ "m " ++ toString (s : ℤ) ++ "s"
      else
        toString (s : ℤ) ++ "s") = renderUptime d h m s := by
  have td : toString (d : ℤ) = toString d := rfl
  have th : toString (h : ℤ) = toString h := rfl
  have tm : toString (m : ℤ) = toString m := rfl
  have ts : toString (s : ℤ) = toString s := rfl
  rw [renderUptime, td, th, tm, ts]
  simp only [gt_iff_lt, Int.natCast_pos]

/-- C3: for every nonnegative duration, format_uptime renders exactly the
spec pattern selected by the first nonzero leading unit over the canonical
day/hour/minute/second breakdown of the whole seconds, and that breakdown
reconstructs the whole seconds with the sub-day components in canonical
ranges. -/
theorem format_uptime_correct (s : ℚ) (hs : 0 ≤ s) :
    format_uptime s =
      renderUptime (⌊s⌋₊ / 86400) (⌊s⌋₊ % 86400 / 3600) (⌊s⌋₊ % 3600 / 60)
        (⌊s⌋₊ % 60) ∧
    ⌊s⌋₊ / 86400 * 86400 + ⌊s⌋₊ % 86400 / 3600 * 3600 + ⌊s⌋₊ % 3600 / 60 * 60
        + ⌊s⌋₊ % 60 = ⌊s⌋₊ ∧
    ⌊s⌋₊ % 86400 / 3600 < 24 ∧ ⌊s⌋₊ % 3600 / 60 < 60 ∧ ⌊s⌋₊ % 60 < 60 := by
  refine ⟨?_, by omega, by omega, by omega, by omega⟩
  simp only [format_uptime]
  rw [days_component s hs, hours_component s hs, minutes_component s hs,
    secs_component s hs, render_intCast_eq]

/-- C3 (witness): one day, one hour, one minute and one second. -/
theorem format_uptime_correct_witness : format_uptime 90061 = "1d 1h 1m 1s" := by
  have h := (format_uptime_correct 90061 (by norm_num)).1
  have hn : ⌊(90061 : ℚ)⌋₊ = 90061 := by norm_num
  rw [h, hn]
  decide
